import Mathlib

/-!
Verification of the timestamp-generating script `src/timestamps.py`.

The script keeps a working set of four calendar dates, and loops while the
accumulator of timestamps has fewer than 80 entries.  Each iteration replaces
every date `d` of the working set by `d.replace(year=d.year+1)` and then
appends `d.timestamp()` of each updated date, in working-set order, to the
accumulator.  Finally the accumulator is printed.

The embedding below models calendar dates with Python's `datetime`
validity rules (month 1..12, day within the month length for the year,
year within `MINYEAR = 1` .. `MAXYEAR = 9999`, leap years by the Gregorian
rule), models `d.replace(year=y)` as a fallible operation returning
`Except`, and models the timezone-dependent conversion
`datetime.timestamp()` as an arbitrary function `f : Date → Int` from dates
to epoch seconds (naive datetimes are interpreted in the local time zone,
so the conversion is a parameter of the run).  A concrete family of such
conversions, `tsLocal off`, converts via the days-from-civil calculation at
a fixed UTC offset `off`.
-/

namespace Timestamps

set_option maxRecDepth 10000

/-- Gregorian leap-year test, as used by Python's `datetime`. -/
def isLeap (y : Int) : Bool := y % 4 == 0 && (y % 100 != 0 || y % 400 == 0)

/-- Number of days of month `m` in year `y` (Gregorian calendar). -/
def daysInMonth (y : Int) (m : Nat) : Nat :=
  if m = 2 then (if isLeap y then 29 else 28)
  else if m = 4 ∨ m = 6 ∨ m = 9 ∨ m = 11 then 30
  else 31

/-- A calendar date, as carried by a `datetime` with zero time-of-day. -/
structure Date where
  year : Int
  month : Nat
  day : Nat
deriving DecidableEq, Repr

/-- Validity of a date under Python's `datetime` constructor: the year must
lie in `MINYEAR = 1` .. `MAXYEAR = 9999`, the month in 1..12 and the day in
1..(length of that month in that year). -/
def Date.valid (d : Date) : Bool :=
  1 ≤ d.year && d.year ≤ 9999 &&
  1 ≤ d.month && d.month ≤ 12 &&
  1 ≤ d.day && d.day ≤ daysInMonth d.year d.month

/-- Model of `d.replace(year=y)`: keep month and day, set the year, failing
(`ValueError` in Python) when the resulting date is not a valid `datetime`
date. -/
def Date.replaceYear (d : Date) (y : Int) : Except Unit Date :=
  if Date.valid ⟨y, d.month, d.day⟩ then .ok ⟨y, d.month, d.day⟩ else .error ()

/-- Whether a `replace` result is the error outcome. -/
def isErr : Except Unit Date → Bool
  | .error _ => true
  | .ok _ => false

/-- Lexicographic strict order on dates: `a` is an earlier calendar date
than `b`. -/
def dateLt (a b : Date) : Bool :=
  a.year < b.year ||
    (a.year == b.year &&
      (a.month < b.month || (a.month == b.month && a.day < b.day)))

/-- The four seed dates of the script, in source order. -/
def seeds : List Date :=
  [⟨2023, 11, 25⟩, ⟨2024, 2, 25⟩, ⟨2024, 5, 24⟩, ⟨2024, 8, 29⟩]

/-- The loop state: the current working set of dates together with the
accumulator of produced timestamps. -/
structure St where
  dates : List Date
  acc : List Int
deriving DecidableEq, Repr

/-- The initial state: the four seeds and an empty accumulator. -/
def init : St := ⟨seeds, []⟩

/-- Model of the list comprehension `[d.replace(year=d.year+1) for d in
dates]`: advance every date by one year, failing fast at the first invalid
result. -/
def advanceAll : List Date → Except Unit (List Date)
  | [] => .ok []
  | d :: ds => do
      let d2 ← d.replaceYear (d.year + 1)
      let ds2 ← advanceAll ds
      pure (d2 :: ds2)

/-- One iteration of the loop body, parameterised by the date-to-timestamp
conversion `f`: rebuild the working set with every year incremented, then
extend the accumulator with the timestamp of each new date, in working-set
order. -/
def step (f : Date → Int) (s : St) : Except Unit St :=
  match advanceAll s.dates with
  | .error e => .error e
  | .ok ds => .ok ⟨ds, s.acc ++ ds.map f⟩

/-- The `while len(timestamps) < 80` loop, with explicit fuel: `none` means
the fuel ran out while the guard still held, `some (.error e)` that a loop
body failed, and `some (.ok s)` that the guard became false in state `s`. -/
def runFuel (f : Date → Int) : Nat → St → Option (Except Unit St)
  | 0, s => if s.acc.length < 80 then none else some (.ok s)
  | n + 1, s =>
    if s.acc.length < 80 then
      match step f s with
      | .error e => some (.error e)
      | .ok s2 => runFuel f n s2
    else some (.ok s)

/-- Iterating the loop body `k` times from the initial state, without the
guard (used to speak about the state after each iteration). -/
def iterSt (f : Date → Int) : Nat → Except Unit St
  | 0 => .ok init
  | k + 1 =>
    match iterSt f k with
    | .error e => .error e
    | .ok s => step f s

/-- A date with its year advanced by `n` (always defined; validity is a
separate question). -/
def addYears (d : Date) (n : Nat) : Date := ⟨d.year + n, d.month, d.day⟩

/-- The working set after `k` iterations: the four seeds advanced by `k`
years, in seed order. -/
def wsAt (k : Nat) : List Date := seeds.map fun d => addYears d k

/-- The dates converted during the first `k` iterations: for each iteration
`j+1` (j = 0..k-1), the four seeds advanced by `j+1` years, in seed
order. -/
def genFirst (k : Nat) : List Date :=
  (List.range k).flatMap fun j => wsAt (j + 1)

/-- The 80 dates whose timestamps the script produces over its 20
iterations. -/
def genDates : List Date := genFirst 20

/-- The loop state after `k` iterations: the seeds advanced by `k` years,
and the accumulator holding the conversion of every date generated so
far. -/
def stateAt (f : Date → Int) (k : Nat) : St := ⟨wsAt k, (genFirst k).map f⟩

/-- The state in which the loop terminates: the state after 20
iterations. -/
def finalSt (f : Date → Int) : St := stateAt f 20

/-- Days between a date and the epoch 1970-01-01 (days-from-civil
computation, Gregorian calendar). -/
def epochDays (d : Date) : Int :=
  let y : Int := if d.month ≤ 2 then d.year - 1 else d.year
  let era : Int := (if 0 ≤ y then y else y - 399) / 400
  let yoe : Int := y - era * 400
  let mp : Int := ((d.month : Int) + 9) % 12
  let doy : Int := (153 * mp + 2) / 5 + (d.day : Int) - 1
  let doe : Int := yoe * 365 + yoe / 4 - yoe / 100 + doy
  era * 146097 + doe - 719468

/-- A concrete timezone-dependent conversion: epoch seconds of local
midnight of `d` in a time zone that is `off` seconds ahead of UTC. -/
def tsLocal (off : Int) (d : Date) : Int := epochDays d * 86400 - off

/-- A strictly monotone encoding of dates, used to exhibit concrete
conversions in witnesses. -/
def lexVal (d : Date) : Int := d.year * 512 + (d.month : Int) * 32 + (d.day : Int)


/-- Unfolding lemma: with positive fuel and a true guard, one successful
loop body passes to the next state. -/
lemma runFuel_succ (f : Date → Int) (n : Nat) (s s2 : St)
    (hg : s.acc.length < 80) (hs : step f s = .ok s2) :
    runFuel f (n + 1) s = runFuel f n s2 := by
  simp only [runFuel, hs, if_pos hg]

/-- Unfolding lemma: when the guard is false the loop stops at once,
whatever the fuel. -/
lemma runFuel_stop (f : Date → Int) (n : Nat) (s : St)
    (hg : ¬ s.acc.length < 80) : runFuel f n s = some (.ok s) := by
  cases n <;> simp only [runFuel, if_neg hg]

/-- Unfolding lemma: with the guard still true, zero fuel yields `none`. -/
lemma runFuel_zero (f : Date → Int) (s : St)
    (hg : s.acc.length < 80) : runFuel f 0 s = none := by
  simp only [runFuel, if_pos hg]

/-- Unfolding lemma for `iterSt`. -/
lemma iterSt_succ (f : Date → Int) (k : Nat) (s s2 : St)
    (h1 : iterSt f k = .ok s) (h2 : step f s = .ok s2) :
    iterSt f (k + 1) = .ok s2 := by
  simp only [iterSt, h1, h2]

/-- The accumulator length after `k` iterations does not depend on the
conversion function. -/
lemma stateAt_len (f : Date → Int) (k : Nat) :
    (stateAt f k).acc.length = (genFirst k).length := List.length_map _ _

/-- Guard form of `stateAt_len`. -/
lemma stateAt_guard (f : Date → Int) (k : Nat)
    (h : (genFirst k).length < 80) : (stateAt f k).acc.length < 80 :=
  (stateAt_len f k).symm ▸ h

/-- Negated guard form of `stateAt_len`. -/
lemma stateAt_guard_not (f : Date → Int) (k : Nat)
    (h : ¬ (genFirst k).length < 80) : ¬ (stateAt f k).acc.length < 80 :=
  (stateAt_len f k).symm ▸ h

/-- With any fuel beyond 20, the loop runs its 20 iterations from the
initial state and stops in the final state. -/
lemma run_init (f : Date → Int) (n : Nat) :
    runFuel f (n + 20) init = some (.ok (stateAt f 20)) := by
  have e1 : runFuel f (n + 20) init = runFuel f (n + 19) (stateAt f 1) :=
    runFuel_succ f (n + 19) (stateAt f 0) (stateAt f 1) (stateAt_guard f 0 (by decide)) rfl
  have e2 : runFuel f (n + 20) init = runFuel f (n + 18) (stateAt f 2) :=
    e1.trans (runFuel_succ f (n + 18) (stateAt f 1) (stateAt f 2) (stateAt_guard f 1 (by decide)) rfl)
  have e3 : runFuel f (n + 20) init = runFuel f (n + 17) (stateAt f 3) :=
    e2.trans (runFuel_succ f (n + 17) (stateAt f 2) (stateAt f 3) (stateAt_guard f 2 (by decide)) rfl)
  have e4 : runFuel f (n + 20) init = runFuel f (n + 16) (stateAt f 4) :=
    e3.trans (runFuel_succ f (n + 16) (stateAt f 3) (stateAt f 4) (stateAt_guard f 3 (by decide)) rfl)
  have e5 : runFuel f (n + 20) init = runFuel f (n + 15) (stateAt f 5) :=
    e4.trans (runFuel_succ f (n + 15) (stateAt f 4) (stateAt f 5) (stateAt_guard f 4 (by decide)) rfl)
  have e6 : runFuel f (n + 20) init = runFuel f (n + 14) (stateAt f 6) :=
    e5.trans (runFuel_succ f (n + 14) (stateAt f 5) (stateAt f 6) (stateAt_guard f 5 (by decide)) rfl)
  have e7 : runFuel f (n + 20) init = runFuel f (n + 13) (stateAt f 7) :=
    e6.trans (runFuel_succ f (n + 13) (stateAt f 6) (stateAt f 7) (stateAt_guard f 6 (by decide)) rfl)
  have e8 : runFuel f (n + 20) init = runFuel f (n + 12) (stateAt f 8) :=
    e7.trans (runFuel_succ f (n + 12) (stateAt f 7) (stateAt f 8) (stateAt_guard f 7 (by decide)) rfl)
  have e9 : runFuel f (n + 20) init = runFuel f (n + 11) (stateAt f 9) :=
    e8.trans (runFuel_succ f (n + 11) (stateAt f 8) (stateAt f 9) (stateAt_guard f 8 (by decide)) rfl)
  have e10 : runFuel f (n + 20) init = runFuel f (n + 10) (stateAt f 10) :=
    e9.trans (runFuel_succ f (n + 10) (stateAt f 9) (stateAt f 10) (stateAt_guard f 9 (by decide)) rfl)
  have e11 : runFuel f (n + 20) init = runFuel f (n + 9) (stateAt f 11) :=
    e10.trans (runFuel_succ f (n + 9) (stateAt f 10) (stateAt f 11) (stateAt_guard f 10 (by decide)) rfl)
  have e12 : runFuel f (n + 20) init = runFuel f (n + 8) (stateAt f 12) :=
    e11.trans (runFuel_succ f (n + 8) (stateAt f 11) (stateAt f 12) (stateAt_guard f 11 (by decide)) rfl)
  have e13 : runFuel f (n + 20) init = runFuel f (n + 7) (stateAt f 13) :=
    e12.trans (runFuel_succ f (n + 7) (stateAt f 12) (stateAt f 13) (stateAt_guard f 12 (by decide)) rfl)
  have e14 : runFuel f (n + 20) init = runFuel f (n + 6) (stateAt f 14) :=
    e13.trans (runFuel_succ f (n + 6) (stateAt f 13) (stateAt f 14) (stateAt_guard f 13 (by decide)) rfl)
  have e15 : runFuel f (n + 20) init = runFuel f (n + 5) (stateAt f 15) :=
    e14.trans (runFuel_succ f (n + 5) (stateAt f 14) (stateAt f 15) (stateAt_guard f 14 (by decide)) rfl)
  have e16 : runFuel f (n + 20) init = runFuel f (n + 4) (stateAt f 16) :=
    e15.trans (runFuel_succ f (n + 4) (stateAt f 15) (stateAt f 16) (stateAt_guard f 15 (by decide)) rfl)
  have e17 : runFuel f (n + 20) init = runFuel f (n + 3) (stateAt f 17) :=
    e16.trans (runFuel_succ f (n + 3) (stateAt f 16) (stateAt f 17) (stateAt_guard f 16 (by decide)) rfl)
  have e18 : runFuel f (n + 20) init = runFuel f (n + 2) (stateAt f 18) :=
    e17.trans (runFuel_succ f (n + 2) (stateAt f 17) (stateAt f 18) (stateAt_guard f 17 (by decide)) rfl)
  have e19 : runFuel f (n + 20) init = runFuel f (n + 1) (stateAt f 19) :=
    e18.trans (runFuel_succ f (n + 1) (stateAt f 18) (stateAt f 19) (stateAt_guard f 18 (by decide)) rfl)
  have e20 : runFuel f (n + 20) init = runFuel f (n + 0) (stateAt f 20) :=
    e19.trans (runFuel_succ f (n + 0) (stateAt f 19) (stateAt f 20) (stateAt_guard f 19 (by decide)) rfl)
  exact e20.trans (runFuel_stop f n (stateAt f 20) (stateAt_guard_not f 20 (by decide)))

/-- With fuel 19 the loop runs out of fuel while the guard still holds:
19 iterations leave only 76 accumulator entries. -/
lemma run_init_19 (f : Date → Int) : runFuel f 19 init = none := by
  have e1 : runFuel f 19 init = runFuel f 18 (stateAt f 1) :=
    runFuel_succ f 18 (stateAt f 0) (stateAt f 1) (stateAt_guard f 0 (by decide)) rfl
  have e2 : runFuel f 19 init = runFuel f 17 (stateAt f 2) :=
    e1.trans (runFuel_succ f 17 (stateAt f 1) (stateAt f 2) (stateAt_guard f 1 (by decide)) rfl)
  have e3 : runFuel f 19 init = runFuel f 16 (stateAt f 3) :=
    e2.trans (runFuel_succ f 16 (stateAt f 2) (stateAt f 3) (stateAt_guard f 2 (by decide)) rfl)
  have e4 : runFuel f 19 init = runFuel f 15 (stateAt f 4) :=
    e3.trans (runFuel_succ f 15 (stateAt f 3) (stateAt f 4) (stateAt_guard f 3 (by decide)) rfl)
  have e5 : runFuel f 19 init = runFuel f 14 (stateAt f 5) :=
    e4.trans (runFuel_succ f 14 (stateAt f 4) (stateAt f 5) (stateAt_guard f 4 (by decide)) rfl)
  have e6 : runFuel f 19 init = runFuel f 13 (stateAt f 6) :=
    e5.trans (runFuel_succ f 13 (stateAt f 5) (stateAt f 6) (stateAt_guard f 5 (by decide)) rfl)
  have e7 : runFuel f 19 init = runFuel f 12 (stateAt f 7) :=
    e6.trans (runFuel_succ f 12 (stateAt f 6) (stateAt f 7) (stateAt_guard f 6 (by decide)) rfl)
  have e8 : runFuel f 19 init = runFuel f 11 (stateAt f 8) :=
    e7.trans (runFuel_succ f 11 (stateAt f 7) (stateAt f 8) (stateAt_guard f 7 (by decide)) rfl)
  have e9 : runFuel f 19 init = runFuel f 10 (stateAt f 9) :=
    e8.trans (runFuel_succ f 10 (stateAt f 8) (stateAt f 9) (stateAt_guard f 8 (by decide)) rfl)
  have e10 : runFuel f 19 init = runFuel f 9 (stateAt f 10) :=
    e9.trans (runFuel_succ f 9 (stateAt f 9) (stateAt f 10) (stateAt_guard f 9 (by decide)) rfl)
  have e11 : runFuel f 19 init = runFuel f 8 (stateAt f 11) :=
    e10.trans (runFuel_succ f 8 (stateAt f 10) (stateAt f 11) (stateAt_guard f 10 (by decide)) rfl)
  have e12 : runFuel f 19 init = runFuel f 7 (stateAt f 12) :=
    e11.trans (runFuel_succ f 7 (stateAt f 11) (stateAt f 12) (stateAt_guard f 11 (by decide)) rfl)
  have e13 : runFuel f 19 init = runFuel f 6 (stateAt f 13) :=
    e12.trans (runFuel_succ f 6 (stateAt f 12) (stateAt f 13) (stateAt_guard f 12 (by decide)) rfl)
  have e14 : runFuel f 19 init = runFuel f 5 (stateAt f 14) :=
    e13.trans (runFuel_succ f 5 (stateAt f 13) (stateAt f 14) (stateAt_guard f 13 (by decide)) rfl)
  have e15 : runFuel f 19 init = runFuel f 4 (stateAt f 15) :=
    e14.trans (runFuel_succ f 4 (stateAt f 14) (stateAt f 15) (stateAt_guard f 14 (by decide)) rfl)
  have e16 : runFuel f 19 init = runFuel f 3 (stateAt f 16) :=
    e15.trans (runFuel_succ f 3 (stateAt f 15) (stateAt f 16) (stateAt_guard f 15 (by decide)) rfl)
  have e17 : runFuel f 19 init = runFuel f 2 (stateAt f 17) :=
    e16.trans (runFuel_succ f 2 (stateAt f 16) (stateAt f 17) (stateAt_guard f 16 (by decide)) rfl)
  have e18 : runFuel f 19 init = runFuel f 1 (stateAt f 18) :=
    e17.trans (runFuel_succ f 1 (stateAt f 17) (stateAt f 18) (stateAt_guard f 17 (by decide)) rfl)
  have e19 : runFuel f 19 init = runFuel f 0 (stateAt f 19) :=
    e18.trans (runFuel_succ f 0 (stateAt f 18) (stateAt f 19) (stateAt_guard f 18 (by decide)) rfl)
  exact e19.trans (runFuel_zero f (stateAt f 19) (stateAt_guard f 19 (by decide)))

/-- After each of the first 21 unguarded iterations the state is the
closed-form `stateAt`. -/
lemma iterSt_eq (f : Date → Int) (k : Nat) (hk : k ≤ 21) :
    iterSt f k = .ok (stateAt f k) := by
  have h0 : iterSt f 0 = .ok (stateAt f 0) := rfl
  have h1 : iterSt f 1 = .ok (stateAt f 1) :=
    iterSt_succ f 0 (stateAt f 0) (stateAt f 1) h0 rfl
  have h2 : iterSt f 2 = .ok (stateAt f 2) :=
    iterSt_succ f 1 (stateAt f 1) (stateAt f 2) h1 rfl
  have h3 : iterSt f 3 = .ok (stateAt f 3) :=
    iterSt_succ f 2 (stateAt f 2) (stateAt f 3) h2 rfl
  have h4 : iterSt f 4 = .ok (stateAt f 4) :=
    iterSt_succ f 3 (stateAt f 3) (stateAt f 4) h3 rfl
  have h5 : iterSt f 5 = .ok (stateAt f 5) :=
    iterSt_succ f 4 (stateAt f 4) (stateAt f 5) h4 rfl
  have h6 : iterSt f 6 = .ok (stateAt f 6) :=
    iterSt_succ f 5 (stateAt f 5) (stateAt f 6) h5 rfl
  have h7 : iterSt f 7 = .ok (stateAt f 7) :=
    iterSt_succ f 6 (stateAt f 6) (stateAt f 7) h6 rfl
  have h8 : iterSt f 8 = .ok (stateAt f 8) :=
    iterSt_succ f 7 (stateAt f 7) (stateAt f 8) h7 rfl
  have h9 : iterSt f 9 = .ok (stateAt f 9) :=
    iterSt_succ f 8 (stateAt f 8) (stateAt f 9) h8 rfl
  have h10 : iterSt f 10 = .ok (stateAt f 10) :=
    iterSt_succ f 9 (stateAt f 9) (stateAt f 10) h9 rfl
  have h11 : iterSt f 11 = .ok (stateAt f 11) :=
    iterSt_succ f 10 (stateAt f 10) (stateAt f 11) h10 rfl
  have h12 : iterSt f 12 = .ok (stateAt f 12) :=
    iterSt_succ f 11 (stateAt f 11) (stateAt f 12) h11 rfl
  have h13 : iterSt f 13 = .ok (stateAt f 13) :=
    iterSt_succ f 12 (stateAt f 12) (stateAt f 13) h12 rfl
  have h14 : iterSt f 14 = .ok (stateAt f 14) :=
    iterSt_succ f 13 (stateAt f 13) (stateAt f 14) h13 rfl
  have h15 : iterSt f 15 = .ok (stateAt f 15) :=
    iterSt_succ f 14 (stateAt f 14) (stateAt f 15) h14 rfl
  have h16 : iterSt f 16 = .ok (stateAt f 16) :=
    iterSt_succ f 15 (stateAt f 15) (stateAt f 16) h15 rfl
  have h17 : iterSt f 17 = .ok (stateAt f 17) :=
    iterSt_succ f 16 (stateAt f 16) (stateAt f 17) h16 rfl
  have h18 : iterSt f 18 = .ok (stateAt f 18) :=
    iterSt_succ f 17 (stateAt f 17) (stateAt f 18) h17 rfl
  have h19 : iterSt f 19 = .ok (stateAt f 19) :=
    iterSt_succ f 18 (stateAt f 18) (stateAt f 19) h18 rfl
  have h20 : iterSt f 20 = .ok (stateAt f 20) :=
    iterSt_succ f 19 (stateAt f 19) (stateAt f 20) h19 rfl
  have h21 : iterSt f 21 = .ok (stateAt f 21) :=
    iterSt_succ f 20 (stateAt f 20) (stateAt f 21) h20 rfl
  interval_cases k <;> assumption


/-- Unfolding of `genFirst` by one iteration: the dates of the first `k+1`
iterations are those of the first `k` followed by the working set of
iteration `k+1`. -/
lemma genFirst_succ (k : Nat) : genFirst (k + 1) = genFirst k ++ wsAt (k + 1) := by
  simp [genFirst, List.range_succ]

/-- The first `k` iterations generate `4 * k` dates. -/
lemma genFirst_length (k : Nat) : (genFirst k).length = 4 * k := by
  induction k with
  | zero => rfl
  | succ n ih =>
      rw [genFirst_succ, List.length_append, ih]
      simp [wsAt, seeds]
      omega

/-- Characterisation of `Date.valid` as a conjunction of bounds. -/
lemma valid_iff (d : Date) : d.valid = true ↔
    (1 ≤ d.year ∧ d.year ≤ 9999 ∧ 1 ≤ d.month ∧ d.month ≤ 12 ∧
     1 ≤ d.day ∧ d.day ≤ daysInMonth d.year d.month) := by
  simp [Date.valid, Bool.and_eq_true, decide_eq_true_eq, and_assoc]

/-- The replace operation errors exactly on an invalid target date. -/
lemma isErr_replaceYear (d : Date) (y : Int) :
    isErr (d.replaceYear y) = ! Date.valid ⟨y, d.month, d.day⟩ := by
  cases hval : Date.valid ⟨y, d.month, d.day⟩ <;>
    simp [Date.replaceYear, hval, isErr]

/-- For a valid source date, replacing the year fails exactly when the
source is a February 29 and the target year is not a leap year, or the
target year leaves the range supported by `datetime`
(`MINYEAR = 1` .. `MAXYEAR = 9999`). -/
lemma replace_fail_iff (d : Date) (hd : d.valid = true) (y : Int) :
    isErr (d.replaceYear y) = true ↔
      ((d.month = 2 ∧ d.day = 29 ∧ isLeap y = false) ∨ y < 1 ∨ 9999 < y) := by
  obtain ⟨hy1, hy2, hm1, hm2, hd1, hd2⟩ := (valid_iff d).mp hd
  have hiff : isErr (d.replaceYear y) = true ↔
      ¬ (Date.valid ⟨y, d.month, d.day⟩ = true) := by
    rw [isErr_replaceYear]
    cases Date.valid ⟨y, d.month, d.day⟩ <;> simp
  rw [hiff, valid_iff]
  change ¬ (1 ≤ y ∧ y ≤ 9999 ∧ 1 ≤ d.month ∧ d.month ≤ 12 ∧
      1 ≤ d.day ∧ d.day ≤ daysInMonth y d.month) ↔ _
  by_cases hm : d.month = 2
  · rw [hm] at hd2 ⊢
    have h29 : d.day ≤ 29 := by
      by_cases hL : isLeap d.year = true <;> simp [daysInMonth, hL] at hd2 <;> omega
    cases hLy : isLeap y <;> simp [daysInMonth, hLy] <;> omega
  · have hdm : daysInMonth y d.month = daysInMonth d.year d.month := by
      simp [daysInMonth, hm]
    rw [hdm]
    simp only [hm, false_and, false_or]
    omega

/-- A hypothetical loop state whose working set holds a leap day: the next
iteration must fail. -/
def badSt : St := ⟨[⟨2024, 2, 29⟩], []⟩


/-- The final accumulator always has 80 entries. -/
lemma finalSt_acc_length (f : Date → Int) : (finalSt f).acc.length = 80 := rfl

/-- There are 80 generated dates. -/
lemma genDates_length : genDates.length = 80 := rfl

/-- Every entry of the final accumulator is the conversion of the
corresponding generated date. -/
lemma finalSt_acc_get (f : Date → Int) (j : Nat) (hj : j < 80) :
    (finalSt f).acc.get ⟨j, by rw [finalSt_acc_length]; omega⟩ =
      f (genDates.get ⟨j, by rw [genDates_length]; omega⟩) := by
  simp [finalSt, stateAt, genDates, List.get_eq_getElem, List.getElem_map]

/-- Each generated date is calendar-earlier than the date four positions
later (its own lineage, one year later). -/
lemma genDates_block_lt : ∀ (i : Fin 4) (k : Fin 19),
    dateLt
      (genDates.get ⟨4 * (k : Nat) + (i : Nat), by
        have h1 := i.isLt; have h2 := k.isLt
        have h : genDates.length = 80 := rfl
        omega⟩)
      (genDates.get ⟨4 * ((k : Nat) + 1) + (i : Nat), by
        have h1 := i.isLt; have h2 := k.isLt
        have h : genDates.length = 80 := rfl
        omega⟩) = true := by
  decide

/-- The generated dates are strictly increasing in calendar order from
each position to the next. -/
lemma genDates_chain_lt : ∀ (j : Fin 79),
    dateLt
      (genDates.get ⟨(j : Nat), by
        have h1 := j.isLt
        have h : genDates.length = 80 := rfl
        omega⟩)
      (genDates.get ⟨(j : Nat) + 1, by
        have h1 := j.isLt
        have h : genDates.length = 80 := rfl
        omega⟩) = true := by
  decide

/-- C1: for every run of the program (any conversion function, any fuel
beyond the 20 iterations needed) the loop stops with an accumulator of
exactly 80 timestamps, equal to the concatenation of 20 consecutive blocks
of 4 values, block `k+1` holding one value per working-set date of
iteration `k+1`, in working-set order. -/
theorem acc_is_twenty_blocks_of_four (f : Date → Int) (n : Nat) :
    runFuel f (n + 20) init = some (.ok (finalSt f)) ∧
    (finalSt f).acc.length = 80 ∧
    (finalSt f).acc = (List.range 20).flatMap (fun k => (wsAt (k + 1)).map f) ∧
    ∀ k, ((wsAt (k + 1)).map f).length = 4 :=
  ⟨run_init f n, rfl, rfl, fun _ => rfl⟩

/-- C2: the loop terminates after exactly 20 iterations: fuel 19 is
exhausted with the guard still true, while any fuel of at least 20 lets
the loop stop normally with an accumulator of 80 entries. -/
theorem loop_terminates_after_twenty_iterations (f : Date → Int) (n : Nat) :
    runFuel f 19 init = none ∧
    runFuel f (n + 20) init = some (.ok (finalSt f)) ∧
    (finalSt f).acc.length = 80 :=
  ⟨run_init_19 f, run_init f n, rfl⟩

/-- C4: the first four accumulator values are the conversions of the four
seed dates each advanced by one year (2024-11-25, 2025-02-25, 2025-05-24,
2025-08-29, in that order); every accumulator entry is the conversion of a
generated date, and no original seed date is among the generated dates. -/
theorem first_block_is_seeds_plus_one_year (f : Date → Int) (n : Nat) :
    runFuel f (n + 20) init = some (.ok (finalSt f)) ∧
    (finalSt f).acc.take 4 =
      [f ⟨2024, 11, 25⟩, f ⟨2025, 2, 25⟩, f ⟨2025, 5, 24⟩, f ⟨2025, 8, 29⟩] ∧
    (finalSt f).acc = genDates.map f ∧
    (seeds.all fun d => ! genDates.contains d) = true :=
  ⟨run_init f n, rfl, rfl, by decide⟩

/-- C5: the last (80th) accumulator value is the conversion of the fourth
seed 2024-08-29 advanced by exactly 20 years, the date 2044-08-29. -/
theorem last_value_is_fourth_seed_plus_twenty_years (f : Date → Int) (n : Nat) :
    runFuel f (n + 20) init = some (.ok (finalSt f)) ∧
    (finalSt f).acc.getLast? = some (f (addYears ⟨2024, 8, 29⟩ 20)) ∧
    addYears ⟨2024, 8, 29⟩ 20 = ⟨2044, 8, 29⟩ ∧
    (finalSt f).acc.length = 80 :=
  ⟨run_init f n, rfl, rfl, rfl⟩

/-- C9: the output depends on the local time zone: under two distinct
fixed-offset conversions (UTC and one hour east of UTC) the same calendar
date maps to different numeric timestamps, and the two runs stop with
different accumulators. -/
theorem output_depends_on_timezone :
    tsLocal 0 ⟨2024, 11, 25⟩ = 1732492800 ∧
    tsLocal 3600 ⟨2024, 11, 25⟩ = 1732489200 ∧
    runFuel (tsLocal 0) 20 init = some (.ok (finalSt (tsLocal 0))) ∧
    runFuel (tsLocal 3600) 20 init = some (.ok (finalSt (tsLocal 3600))) ∧
    finalSt (tsLocal 0) ≠ finalSt (tsLocal 3600) :=
  ⟨by decide, by decide, run_init (tsLocal 0) 0, run_init (tsLocal 3600) 0,
    by decide⟩


/-- C3: block monotonicity: if the conversion is strictly monotone on the
generated dates with respect to calendar order, then for every seed index
`i < 4` and iteration index `k ≤ 18`, accumulator entry `4k+i` is strictly
below entry `4(k+1)+i` (the same seed lineage, one year later). -/
theorem acc_block_monotone (f : Date → Int)
    (hf : ∀ a ∈ genDates, ∀ b ∈ genDates, dateLt a b = true → f a < f b)
    (i k : Nat) (hi : i < 4) (hk : k ≤ 18) :
    (finalSt f).acc.get ⟨4 * k + i, by rw [finalSt_acc_length]; omega⟩ <
      (finalSt f).acc.get ⟨4 * (k + 1) + i, by rw [finalSt_acc_length]; omega⟩ := by
  rw [finalSt_acc_get f (4 * k + i) (by omega),
      finalSt_acc_get f (4 * (k + 1) + i) (by omega)]
  exact hf _ (List.get_mem _ _ _) _ (List.get_mem _ _ _)
    (genDates_block_lt ⟨i, hi⟩ ⟨k, by omega⟩)

/-- Witness for `acc_block_monotone`: the strictly monotone conversion
`lexVal`, seed index 0 and iteration index 0. -/
theorem acc_block_monotone_witness :
    (∀ a ∈ genDates, ∀ b ∈ genDates, dateLt a b = true → lexVal a < lexVal b) ∧
    (0 : Nat) < 4 ∧ (0 : Nat) ≤ 18 ∧
    (finalSt lexVal).acc.get ⟨4 * 0 + 0, by rw [finalSt_acc_length]; omega⟩ <
      (finalSt lexVal).acc.get ⟨4 * (0 + 1) + 0, by rw [finalSt_acc_length]; omega⟩ :=
  ⟨by decide, by decide, by decide,
    acc_block_monotone lexVal (by decide) 0 0 (by decide) (by decide)⟩

/-- C10: the whole 80-entry accumulator is strictly increasing, not merely
block-monotonic: if the conversion is strictly monotone on the generated
dates with respect to calendar order then every entry is strictly below
its successor. -/
theorem acc_strictly_increasing (f : Date → Int)
    (hf : ∀ a ∈ genDates, ∀ b ∈ genDates, dateLt a b = true → f a < f b)
    (j : Nat) (hj : j < 79) :
    (finalSt f).acc.get ⟨j, by rw [finalSt_acc_length]; omega⟩ <
      (finalSt f).acc.get ⟨j + 1, by rw [finalSt_acc_length]; omega⟩ := by
  rw [finalSt_acc_get f j (by omega), finalSt_acc_get f (j + 1) (by omega)]
  exact hf _ (List.get_mem _ _ _) _ (List.get_mem _ _ _)
    (genDates_chain_lt ⟨j, hj⟩)

/-- Witness for `acc_strictly_increasing`: the strictly monotone
conversion `lexVal` at position 0. -/
theorem acc_strictly_increasing_witness :
    (∀ a ∈ genDates, ∀ b ∈ genDates, dateLt a b = true → lexVal a < lexVal b) ∧
    (0 : Nat) < 79 ∧
    (finalSt lexVal).acc.get ⟨0, by rw [finalSt_acc_length]; omega⟩ <
      (finalSt lexVal).acc.get ⟨0 + 1, by rw [finalSt_acc_length]; omega⟩ :=
  ⟨by decide, by decide,
    acc_strictly_increasing lexVal (by decide) 0 (by decide)⟩

/-- C7: after each of the 20 iterations the accumulator length is exactly
four times the iteration count, and each iteration only appends: the
accumulator before an iteration is exactly the first `4k` entries, in
value and position, of the accumulator after it. -/
theorem acc_append_only_invariant (f : Date → Int) (k : Nat) (hk : k ≤ 20) :
    Except.map (fun s => s.acc.length) (iterSt f k) = .ok (4 * k) ∧
    Except.map (fun s => s.acc.length) (iterSt f (k + 1)) = .ok (4 * (k + 1)) ∧
    Except.map (fun s => s.acc.take (4 * k)) (iterSt f (k + 1)) =
      Except.map (fun s => s.acc) (iterSt f k) := by
  rw [iterSt_eq f k (by omega), iterSt_eq f (k + 1) (by omega)]
  refine ⟨?_, ?_, ?_⟩
  · simp [Except.map, stateAt, genFirst_length]
  · simp [Except.map, stateAt, genFirst_length]
  · simp only [Except.map, stateAt]
    have e : (genFirst (k + 1)).map f = (genFirst k).map f ++ (wsAt (k + 1)).map f := by
      rw [genFirst_succ, List.map_append]
    have hlen : ((genFirst k).map f).length = 4 * k := by
      rw [List.length_map, genFirst_length]
    rw [e, ← hlen, List.take_left]

/-- Witness for `acc_append_only_invariant`: the UTC conversion after
iteration 5. -/
theorem acc_append_only_invariant_witness :
    (5 : Nat) ≤ 20 ∧
    (Except.map (fun s => s.acc.length) (iterSt (tsLocal 0) 5) = .ok (4 * 5) ∧
     Except.map (fun s => s.acc.length) (iterSt (tsLocal 0) (5 + 1)) = .ok (4 * (5 + 1)) ∧
     Except.map (fun s => s.acc.take (4 * 5)) (iterSt (tsLocal 0) (5 + 1)) =
       Except.map (fun s => s.acc) (iterSt (tsLocal 0) 5)) :=
  ⟨by decide, acc_append_only_invariant (tsLocal 0) 5 (by decide)⟩

/-- C8: determinism: two runs whose conversion functions agree on every
generated date (the same local time zone) stop with identical final
states; no randomness or other external state influences the output. -/
theorem run_deterministic (f g : Date → Int)
    (h : ∀ d ∈ genDates, f d = g d) (n : Nat) :
    runFuel f (n + 20) init = some (.ok (finalSt f)) ∧
    runFuel g (n + 20) init = some (.ok (finalSt g)) ∧
    finalSt f = finalSt g := by
  refine ⟨run_init f n, run_init g n, ?_⟩
  show (⟨wsAt 20, genDates.map f⟩ : St) = ⟨wsAt 20, genDates.map g⟩
  rw [List.map_congr_left h]

/-- Witness for `run_deterministic`: the UTC conversion and a pointwise
equal variant of it. -/
theorem run_deterministic_witness :
    (∀ d ∈ genDates, tsLocal 0 d = tsLocal 0 d + 0) ∧
    (runFuel (tsLocal 0) (0 + 20) init = some (.ok (finalSt (tsLocal 0))) ∧
     runFuel (fun d => tsLocal 0 d + 0) (0 + 20) init =
       some (.ok (finalSt (fun d => tsLocal 0 d + 0))) ∧
     finalSt (tsLocal 0) = finalSt (fun d => tsLocal 0 d + 0)) :=
  ⟨by decide,
    run_deterministic (tsLocal 0) (fun d => tsLocal 0 d + 0) (by decide) 0⟩

/-- Counterexample to C6 as stated: replacing the year of the valid date
9999-06-15 (month 6, not a February 29) by year+1 = 10000 fails, because
10000 exceeds `datetime.MAXYEAR = 9999`, not because of any leap-day
issue. -/
theorem replace_fails_beyond_maxyear :
    Date.valid ⟨9999, 6, 15⟩ = true ∧
    (⟨9999, 6, 15⟩ : Date).month = 6 ∧
    (⟨9999, 6, 15⟩ : Date).day = 15 ∧
    isErr (Date.replaceYear ⟨9999, 6, 15⟩ ((9999 : Int) + 1)) = true := by
  decide

/-- C6 (amended): for a valid source date, replacing the year fails
exactly when the source is a February 29 and the target year is not a leap
year, or the target year falls outside the range 1..9999 supported by
`datetime`; with the four fixed seeds no failure occurs and the run
completes normally, while from a state whose working set holds a leap day
the loop body errors and the loop stops at once with the error, producing
no final accumulator. -/
theorem year_increment_error_behaviour (f g : Date → Int) (d : Date)
    (hd : d.valid = true) (y : Int) (n : Nat) :
    (isErr (d.replaceYear y) = true ↔
      ((d.month = 2 ∧ d.day = 29 ∧ isLeap y = false) ∨ y < 1 ∨ 9999 < y)) ∧
    runFuel f (n + 20) init = some (.ok (finalSt f)) ∧
    step g badSt = .error () ∧
    runFuel g (n + 1) badSt = some (.error ()) :=
  ⟨replace_fail_iff d hd y, run_init f n, rfl, rfl⟩

/-- Witness for `year_increment_error_behaviour`: the leap day 2024-02-29
with target year 2025 (an actual failing replace), under the UTC
conversion. -/
theorem year_increment_error_behaviour_witness :
    Date.valid ⟨2024, 2, 29⟩ = true ∧
    ((isErr (Date.replaceYear ⟨2024, 2, 29⟩ 2025) = true ↔
       (((⟨2024, 2, 29⟩ : Date).month = 2 ∧ (⟨2024, 2, 29⟩ : Date).day = 29 ∧
         isLeap 2025 = false) ∨ (2025 : Int) < 1 ∨ 9999 < (2025 : Int))) ∧
     runFuel (tsLocal 0) (0 + 20) init = some (.ok (finalSt (tsLocal 0))) ∧
     step (tsLocal 0) badSt = .error () ∧
     runFuel (tsLocal 0) (0 + 1) badSt = some (.error ())) :=
  ⟨by decide,
    year_increment_error_behaviour (tsLocal 0) (tsLocal 0) ⟨2024, 2, 29⟩
      (by decide) 2025 0⟩

end Timestamps
